import Mathlib

/-!
Verification of the gitsyncer reconciliation core.

Shallow embedding of `src/git_syncer.py` (class `GitSyncer`) and the parts of
`src/gitea/api.py` it calls.  External I/O (subprocess git invocations, Gitea
HTTP calls, logging, printing, sleeping) is modelled by an effect trace plus an
environment of oracle responses for each fallible operation; Python exceptions
are modelled by `Except`.  Python's `str` / `bytes` / `None` value distinction,
which matters because `subprocess.check_output` returns `bytes`, is modelled by
the inductive `PyVal` together with Python's `==` (`pyEq`) and f-string
formatting (`pyFormat`).
-/

namespace GitSyncer

/-- A Python value as it flows through the syncer: a text string, a `bytes`
object (content restricted to printable ASCII without quotes or backslashes,
which covers every value the syncer handles: hex SHAs and git output), or
`None` (the initial `last_commit_sha`). -/
inductive PyVal where
  | str (s : String)
  | bytes (s : String)
  | none
deriving DecidableEq, Repr

/-- Python `==` on the values above: `str` and `bytes` never compare equal to
each other, `None == None` is `True`, and within one kind equality is content
equality. -/
def pyEq : PyVal → PyVal → Bool
  | .str a, .str b => a == b
  | .bytes a, .bytes b => a == b
  | .none, .none => true
  | _, _ => false

/-- Python f-string interpolation of one of the values above: a `str` is
inserted verbatim, a `bytes` object is inserted via its `repr`, which for
printable ASCII content without quotes or backslashes is `b'<content>'`, and
`None` prints as `None`. -/
def pyFormat : PyVal → String
  | .str s => s
  | .bytes s => "b'" ++ s ++ "'"
  | .none => "None"

/-- A pull request as returned by the Gitea pull-request listing endpoint;
only the `title` field is read by the syncer (`pr['title']`, a JSON string). -/
structure PullRequest where
  title : String
deriving DecidableEq, Repr

/-- Python exceptions raised by the modelled operations:
`subprocess.CalledProcessError` (non-zero git exit) and `requests.HTTPError`
(non-2xx Gitea response, carrying status code and response text). -/
inductive PyErr where
  | calledProcessError (exitCode : Nat)
  | httpError (status : Nat) (body : String)
deriving DecidableEq, Repr

/-- The message interpolated by `logging.error(f"An error occurred: {e}")`. -/
def errStr : PyErr → String
  | .calledProcessError c => "Command returned non-zero exit status " ++ toString c ++ "."
  | .httpError s b => toString s ++ " Error: " ++ b

/-- One observable external action of the syncer, in program order. -/
inductive Effect where
  | logInfo (msg : String)
  | logError (msg : String)
  | print (msg : String)
  | gitPull
  | gitRevParse
  | gitBranch (name : String)
  | gitCheckout (name : String)
  | gitPush (remote branch : String)
  | gitRemoteGetUrl (name : String)
  | gitRemoteRemove (name : String)
  | gitRemoteAdd (name url : String)
  | listPullRequests (owner repo : String)
  | createPullRequest (owner repo base head title body : String)
  | getCommits (owner repo : String)
  | getRepository (owner repo : String)
  | sleep (seconds : Nat)
deriving DecidableEq, Repr

/-- Execution monad: threads the effect trace (kept even when an exception is
raised, since effects already performed are not undone) and short-circuits on a
raised exception, like Python control flow. -/
def M (α : Type) : Type := List Effect → Except PyErr α × List Effect

instance : Monad M where
  pure a := fun t => (Except.ok a, t)
  bind x f := fun t =>
    match x t with
    | (Except.ok a, t') => f a t'
    | (Except.error e, t') => (Except.error e, t')

/-- Record one effect. -/
def emit (e : Effect) : M Unit := fun t => (Except.ok (), t ++ [e])

/-- Raise a Python exception. -/
def raise {α : Type} (e : PyErr) : M α := fun t => (Except.error e, t)

/-- Turn an oracle response for a `subprocess.check_call` into success or a
`CalledProcessError`. -/
def checkCall (r : Option PyErr) : M Unit :=
  match r with
  | Option.none => pure ()
  | Option.some e => raise e

/-- Turn an oracle response for an HTTP call (`raise_for_status`) into the
response value or an `HTTPError`. -/
def httpResult {α : Type} (r : Except PyErr α) : M α :=
  match r with
  | Except.ok a => pure a
  | Except.error e => raise e

/-- The configuration fields of the `GitSyncer` object that the reconciliation
core reads (`__init__`, git_syncer.py lines 32-46). -/
structure Config where
  source_repo_url : String
  target_repo_url : String
  local_path : String
  wait_time : Nat
  gitea_token : String
  target_owner : String
  target_repo : String
deriving Repr

/-- Oracle responses for the fallible operations one reconciliation cycle can
perform; each operation is invoked at most once per cycle. `revParseOutput` is
the raw `bytes` output of `git rev-parse HEAD` before `.strip()`. -/
structure Env where
  pullResult : Option PyErr
  revParseOutput : Except PyErr String
  prListResult : Except PyErr (List PullRequest)
  branchResult : Option PyErr
  checkoutResult : Option PyErr
  pushResult : Option PyErr
  createPrResult : Except PyErr PullRequest
deriving Repr

/-- `pull_source` (git_syncer.py lines 89-94): log, then `git pull`. -/
def pull_source (env : Env) : M Unit := do
  emit (.logInfo "Starting the pull process from the source repository...")
  emit .gitPull
  checkCall env.pullResult

/-- The characters Python `bytes.strip()` removes: the ASCII whitespace set
`b" \t\n\x0b\x0c\r"`. -/
def isPyWhitespace (c : Char) : Bool :=
  c = ' ' || c = '\t' || c = '\n' || c = '\x0b' || c = '\x0c' || c = '\r'

/-- Python `bytes.strip()` / `str.strip()` with no argument: remove ASCII
whitespace from both ends. -/
def pyStrip (s : String) : String :=
  String.mk (((s.toList.dropWhile isPyWhitespace).reverse.dropWhile isPyWhitespace).reverse)

/-- `get_source_latest_commit_sha` (lines 72-80): `subprocess.check_output`
returns `bytes`; `.strip()` removes ASCII whitespace at both ends and the
result is returned *undecoded*, hence a `PyVal.bytes`. -/
def get_source_latest_commit_sha (env : Env) : M PyVal := do
  emit .gitRevParse
  let raw ← httpResult env.revParseOutput
  pure (PyVal.bytes (pyStrip raw))

/-- Python `str.rstrip(cs)`: remove trailing characters drawn from the set
`cs` (NOT the suffix `cs` — `"taggit.git".rstrip('.git')` is `"ta"`). -/
def rstripChars (cs : List Char) (s : String) : String :=
  String.mk ((s.toList.reverse.dropWhile (fun c => cs.contains c)).reverse)

/-- The remainder of a URL after the first `"://"`, or `none` when the URL
has no scheme separator. -/
def afterSchemeSep : List Char → Option (List Char)
  | ':' :: '/' :: '/' :: rest => Option.some rest
  | _ :: rest => afterSchemeSep rest
  | [] => Option.none

/-- `urlparse(url).path` for the URLs the syncer handles
(`scheme://netloc/owner/repo[.git]`): the authority-relative remainder from
its first `'/'` on; a URL without `"://"` is all path. -/
def urlPathChars (url : String) : List Char :=
  match afterSchemeSep url.toList with
  | Option.some rest => rest.dropWhile (fun c => !(c = '/'))
  | Option.none => url.toList

/-- Python `str.strip('/')`: remove every leading and trailing `'/'`. -/
def stripSlashChars (l : List Char) : List Char :=
  ((l.dropWhile (· = '/')).reverse.dropWhile (· = '/')).reverse

/-- Python `str.split('/')`. -/
def splitOnSlash : List Char → List (List Char)
  | [] => [[]]
  | c :: cs =>
    match splitOnSlash cs with
    | [] => [[]]
    | w :: ws => if c = '/' then [] :: w :: ws else (c :: w) :: ws

/-- `urlparse(target_repo_url).path.strip("/").split("/")`
(git_syncer.py lines 114-115). -/
def urlPathParts (url : String) : List String :=
  (splitOnSlash (stripSlashChars (urlPathChars url))).map String.mk

/-- The `owner` extracted in `get_target_pull_requests` (line 116):
`path_parts[0]`. -/
def urlOwner (url : String) : String := (urlPathParts url).getD 0 ""

/-- The `repo` extracted in `get_target_pull_requests` (line 117):
`path_parts[1].rstrip('.git')`. -/
def urlRepo (url : String) : String :=
  rstripChars ['.', 'g', 'i', 't'] ((urlPathParts url).getD 1 "")

/-- `get_target_pull_requests` (lines 104-121): parses owner and repo out of
`target_repo_url` and lists the target's pull requests through the Gitea API. -/
def get_target_pull_requests (cfg : Config) (env : Env) : M (List PullRequest) := do
  emit (.logInfo "Getting the list of pull requests from the target repository...")
  let owner := urlOwner cfg.target_repo_url
  let repo := urlRepo cfg.target_repo_url
  emit (.listPullRequests owner repo)
  httpResult env.prListResult

/-- `check_if_pr_exists` (lines 161-175): scans the pull-request list and
returns `True` on the first `pr['title'] == commit_sha`, else `False`.
Python `==` between a `str` title and the supplied value is `pyEq`. -/
def check_if_pr_exists (commit_sha : PyVal) (pr_list : List PullRequest) : Bool :=
  pr_list.any (fun pr => pyEq (.str pr.title) commit_sha)

/-- `create_branch_in_target` (lines 177-191): `git branch` then
`git checkout` in the local clone. -/
def create_branch_in_target (env : Env) (branch_name : String) : M Unit := do
  emit (.gitBranch branch_name)
  checkCall env.branchResult
  emit (.gitCheckout branch_name)
  checkCall env.checkoutResult

/-- `push_to_target_branch` (lines 193-204): `git push -u otc_gitea <branch>`. -/
def push_to_target_branch (env : Env) (branch_name : String) : M Unit := do
  emit (.gitPush "otc_gitea" branch_name)
  checkCall env.pushResult

/-- `create_pr_in_target` (lines 206-224): creates the pull request with the
configured owner and repo, `base='main'`, `head=branch_name`, and title
`f'Pull request for branch {branch_name}'`. -/
def create_pr_in_target (cfg : Config) (env : Env) (branch_name : String) : M PullRequest := do
  let owner := cfg.target_owner
  let repo := cfg.target_repo
  let base := "main"
  let title := "Pull request for branch " ++ branch_name
  let body := "This is an automated pull request."
  emit (.createPullRequest owner repo base branch_name title body)
  httpResult env.createPrResult

/-- `handle_new_commit` (lines 138-159): list the target's pull requests,
check for a duplicate, and if none, create branch `f"branch_{commit_sha}"`
(f-string interpolation of the `PyVal`), push it, and open a pull request. -/
def handle_new_commit (cfg : Config) (env : Env) (commit_sha : PyVal) : M Unit := do
  let pr_list ← get_target_pull_requests cfg env
  let pr_exists := check_if_pr_exists commit_sha pr_list
  if !pr_exists then
    let branch_name := "branch_" ++ pyFormat commit_sha
    create_branch_in_target env branch_name
    push_to_target_branch env branch_name
    let _ ← create_pr_in_target cfg env branch_name
    pure ()
  else
    emit (.logInfo "A PR for the new commit already exists, skipping.")

/-- `check_for_new_commit` (lines 123-136): the bare attribute reference
`self._ensure_target_repository_exists` on line 129 performs no call and has
no effect, so it is not modelled.  Pull, read the head SHA, mirror if it
differs from `last_commit_sha` (Python `!=`), else log; the final assignment
`self.last_commit_sha = current_commit_sha` on line 136 is only reached when
no exception was raised, which the monad's short-circuiting reproduces: the
returned value is the new `last_commit_sha`. -/
def check_for_new_commit (cfg : Config) (env : Env) (last : PyVal) : M PyVal := do
  pull_source env
  let current ← get_source_latest_commit_sha env
  if !(pyEq current last) then
    handle_new_commit cfg env current
  else
    emit (.logInfo "No new commits detected.")
  pure current

/-- One iteration of the `while True` body in `run` (lines 323-330), without
the `try`/`except`: log, reconcile, log, sleep. -/
def run_cycle (cfg : Config) (env : Env) (last : PyVal) : M PyVal := do
  emit (.logInfo "Beginning the synchronization process...")
  let newLast ← check_for_new_commit cfg env last
  emit (.logInfo "Synchronization completed.")
  emit (.sleep cfg.wait_time)
  pure newLast

/-- One iteration of the `while True` loop in `run` (lines 323-332) including
the `except Exception` handler: on an exception the error is logged and
`self.last_commit_sha` keeps its previous value.  Returns the cycle's effect
trace and the `last_commit_sha` after the cycle. -/
def run_cycle_caught (cfg : Config) (env : Env) (last : PyVal) : List Effect × PyVal :=
  match run_cycle cfg env last [] with
  | (Except.ok newLast, tr) => (tr, newLast)
  | (Except.error e, tr) => (tr ++ [.logError ("An error occurred: " ++ errStr e)], last)

/-- A finite prefix of the infinite `while True` loop: one `Env` of oracle
responses per cycle.  Returns the concatenated trace and the final
`last_commit_sha`. -/
def run_loop (cfg : Config) (envs : List Env) (last : PyVal) : List Effect × PyVal :=
  match envs with
  | [] => ([], last)
  | env :: rest =>
    let (tr, l') := run_cycle_caught cfg env last
    let (tr', l'') := run_loop cfg rest l'
    (tr ++ tr', l'')

/-- Does `pat` occur at the very start of `l`? -/
def leadsWith : List Char → List Char → Bool
  | [], _ => true
  | _ :: _, [] => false
  | p :: ps, c :: cs => p = c && leadsWith ps cs

/-- Does `pat` occur somewhere inside `l`? -/
def containsSub (pat : List Char) : List Char → Bool
  | [] => pat.isEmpty
  | c :: cs => leadsWith pat (c :: cs) || containsSub pat cs

/-- Python `needle in haystack` on strings (substring containment), used by
the 409 handler's check that the response text carries the marker
`Git Repository is empty.` -/
def strContains (haystack needle : String) : Bool :=
  containsSub needle.toList haystack.toList

/-- Oracle responses for the bootstrap phase of `run` (lines 304-321) and the
`sync_source_to_target` it may invoke (lines 260-290). -/
structure BootEnv where
  getCommitsResult : Except PyErr (List String)
  getRepositoryResult : Except PyErr String
  remoteGetUrlOk : Bool
  remoteRemoveResult : Option PyErr
  remoteAddResult : Option PyErr
  pushResult : Option PyErr
  getCommitsRetry : Except PyErr (List String)
deriving Repr

/-- `sync_source_to_target` (lines 260-290): look up the target's clone URL,
splice the token into it, remove a stale `otc_gitea` remote if one exists
(`git remote get-url` succeeding means it exists), add the remote afresh and
push `main` to it. -/
def sync_source_to_target (cfg : Config) (env : BootEnv) (owner repo : String) : M Unit := do
  let target_name := "otc_gitea"
  emit (.getRepository owner repo)
  let clone_url ← httpResult env.getRepositoryResult
  let target_url := clone_url.replace "http://" ("http://" ++ cfg.gitea_token ++ "@")
  emit (.gitRemoteGetUrl target_name)
  if env.remoteGetUrlOk then
    emit (.gitRemoteRemove target_name)
    checkCall env.remoteRemoveResult
  else
    pure ()
  emit (.gitRemoteAdd target_name target_url)
  checkCall env.remoteAddResult
  emit (.gitPush target_name "main")
  checkCall env.pushResult

/-- The bootstrap block of `run` (lines 304-321): list the target's commits;
on an empty list only a message is printed — the `sync_source_to_target` call
on line 311 is commented out in the source; on an `HTTPError` with status 409
whose body contains `'Git Repository is empty.'`, sync, sleep 10 seconds and
retry the commit listing; any other exception propagates. -/
def bootstrap (cfg : Config) (env : BootEnv) : M Unit := do
  emit (.getCommits cfg.target_owner cfg.target_repo)
  match env.getCommitsResult with
  | Except.ok commits =>
    if commits.isEmpty then
      emit (.print ("Target repository " ++ cfg.target_owner ++ "/" ++ cfg.target_repo ++
        " is empty. Syncing with source repository..."))
    else
      pure ()
  | Except.error e =>
    match e with
    | .httpError status body =>
      if status == 409 && strContains body "Git Repository is empty." then do
        emit (.print ("Target repository " ++ cfg.target_owner ++ "/" ++ cfg.target_repo ++
          " is empty. Syncing with source repository..."))
        sync_source_to_target cfg env cfg.target_owner cfg.target_repo
        emit (.sleep 10)
        emit (.getCommits cfg.target_owner cfg.target_repo)
        let _ ← httpResult env.getCommitsRetry
        pure ()
      else
        raise e
    | _ => raise e

/-! ## Trace observables -/

/-- Is this effect the `git pull` invocation? -/
def isPull : Effect → Bool
  | .gitPull => true
  | _ => false

/-- Is this effect a `git push` invocation (any remote, any branch)? -/
def isPush : Effect → Bool
  | .gitPush _ _ => true
  | _ => false

/-- Is this effect a `time.sleep` call? -/
def isSleep : Effect → Bool
  | .sleep _ => true
  | _ => false

/-- Is this effect a pull-request creation call? -/
def isCreatePr : Effect → Bool
  | .createPullRequest _ _ _ _ _ _ => true
  | _ => false

/-- Is this effect a pull-request listing call? -/
def isListPr : Effect → Bool
  | .listPullRequests _ _ => true
  | _ => false

/-- Is this effect a `git branch` invocation? -/
def isBranch : Effect → Bool
  | .gitBranch _ => true
  | _ => false

/-- Is this effect a logged error? -/
def isLogError : Effect → Bool
  | .logError _ => true
  | _ => false

/-- Did the computation finish without a raised exception? -/
def resOk {α : Type} : Except PyErr α → Bool
  | Except.ok _ => true
  | Except.error _ => false

/-! ## Concrete test fixtures

A configuration whose target URL path (`/alice/mirror.git`) names a different
owner (`alice`) than the configured Gitea owner (`bob`), and cycle
environments for a healthy cycle, a failing push, a failing pull, and a second
cycle whose pull-request listing contains the pull request created by the
first cycle. -/

/-- Concrete configuration used by the concrete-input theorems. -/
def cfg0 : Config :=
  { source_repo_url := "http://src.example.com/alice/upstream.git"
    target_repo_url := "http://git.example.com/alice/mirror.git"
    local_path := "/var/lib/syncer/clone"
    wait_time := 5
    gitea_token := "tok"
    target_owner := "bob"
    target_repo := "mirror" }

/-- A cycle in which every external operation succeeds: the pull works, the
head is commit `abc123` (raw `git rev-parse` output `b"abc123\n"`), the
target has no pull requests, and branch/checkout/push/PR-creation succeed. -/
def envOk : Env :=
  { pullResult := Option.none
    revParseOutput := Except.ok "abc123\n"
    prListResult := Except.ok []
    branchResult := Option.none
    checkoutResult := Option.none
    pushResult := Option.none
    createPrResult := Except.ok ⟨"Pull request for branch branch_b'abc123'"⟩ }

/-- Same as `envOk` but `git push` exits non-zero. -/
def envPushFail : Env := { envOk with pushResult := Option.some (.calledProcessError 1) }

/-- Same as `envOk` but `git pull` exits non-zero. -/
def envPullFail : Env := { envOk with pullResult := Option.some (.calledProcessError 1) }

/-- Same as `envOk` but the target's pull-request listing returns exactly the
pull request that `envOk`'s cycle created. -/
def envSecond : Env :=
  { envOk with prListResult := Except.ok [⟨"Pull request for branch branch_b'abc123'"⟩] }

/-- Bootstrap responses: the target's commit listing returns an empty list. -/
def bootEnvEmptyList : BootEnv :=
  { getCommitsResult := Except.ok []
    getRepositoryResult := Except.ok "http://git.example.com/bob/mirror.git"
    remoteGetUrlOk := false
    remoteRemoveResult := Option.none
    remoteAddResult := Option.none
    pushResult := Option.none
    getCommitsRetry := Except.ok ["c1"] }

/-- Bootstrap responses: the commit listing raises HTTP 409 with the
empty-repository marker in the body. -/
def bootEnv409 : BootEnv :=
  { bootEnvEmptyList with
    getCommitsResult := Except.error (.httpError 409 "409 Conflict: Git Repository is empty.") }

/-- Bootstrap responses: the target already has a commit. -/
def bootEnvNonEmpty : BootEnv :=
  { bootEnvEmptyList with getCommitsResult := Except.ok ["c1"] }

/-! ## Unfolding lemmas for symbolic execution of `M` programs -/

theorem bind_apply {α β : Type} (x : M α) (f : α → M β) (t : List Effect) :
    (x >>= f) t = match x t with
      | (Except.ok a, t') => f a t'
      | (Except.error e, t') => (Except.error e, t') := rfl

theorem pure_apply {α : Type} (a : α) (t : List Effect) :
    (Pure.pure a : M α) t = (Except.ok a, t) := rfl

theorem emit_apply (e : Effect) (t : List Effect) :
    emit e t = (Except.ok (), t ++ [e]) := rfl

theorem raise_apply {α : Type} (e : PyErr) (t : List Effect) :
    (raise e : M α) t = (Except.error e, t) := rfl

/-! ## Closed-form characterizations of the embedded methods -/

theorem pull_source_apply (env : Env) (t : List Effect) :
    pull_source env t =
      ((match env.pullResult with
        | Option.none => Except.ok ()
        | Option.some e => Except.error e),
       t ++ [.logInfo "Starting the pull process from the source repository...", .gitPull]) := by
  cases h : env.pullResult <;>
    simp [pull_source, checkCall, h, bind_apply, emit_apply, pure_apply, raise_apply]

theorem get_source_latest_commit_sha_apply (env : Env) (t : List Effect) :
    get_source_latest_commit_sha env t =
      ((match env.revParseOutput with
        | Except.ok raw => Except.ok (PyVal.bytes (pyStrip raw))
        | Except.error e => Except.error e),
       t ++ [.gitRevParse]) := by
  cases h : env.revParseOutput <;>
    simp [get_source_latest_commit_sha, httpResult, h, bind_apply, emit_apply, pure_apply,
          raise_apply]

theorem get_target_pull_requests_apply (cfg : Config) (env : Env) (t : List Effect) :
    get_target_pull_requests cfg env t =
      (env.prListResult,
       t ++ [.logInfo "Getting the list of pull requests from the target repository...",
             .listPullRequests (urlOwner cfg.target_repo_url) (urlRepo cfg.target_repo_url)]) := by
  cases h : env.prListResult <;>
    simp [get_target_pull_requests, httpResult, h, bind_apply, emit_apply, pure_apply, raise_apply]

theorem create_branch_in_target_apply (env : Env) (bn : String) (t : List Effect) :
    create_branch_in_target env bn t =
      (match env.branchResult with
       | Option.some e => (Except.error e, t ++ [.gitBranch bn])
       | Option.none =>
         ((match env.checkoutResult with
           | Option.some e => Except.error e
           | Option.none => Except.ok ()),
          t ++ [.gitBranch bn, .gitCheckout bn])) := by
  cases hb : env.branchResult <;> cases hc : env.checkoutResult <;>
    simp [create_branch_in_target, checkCall, hb, hc, bind_apply, emit_apply, pure_apply,
          raise_apply]

theorem push_to_target_branch_apply (env : Env) (bn : String) (t : List Effect) :
    push_to_target_branch env bn t =
      ((match env.pushResult with
        | Option.some e => Except.error e
        | Option.none => Except.ok ()),
       t ++ [.gitPush "otc_gitea" bn]) := by
  cases h : env.pushResult <;>
    simp [push_to_target_branch, checkCall, h, bind_apply, emit_apply, pure_apply, raise_apply]

theorem create_pr_in_target_apply (cfg : Config) (env : Env) (bn : String) (t : List Effect) :
    create_pr_in_target cfg env bn t =
      (env.createPrResult,
       t ++ [.createPullRequest cfg.target_owner cfg.target_repo "main" bn
              ("Pull request for branch " ++ bn) "This is an automated pull request."]) := by
  cases h : env.createPrResult <;>
    simp [create_pr_in_target, httpResult, h, bind_apply, emit_apply, pure_apply, raise_apply]

theorem handle_new_commit_apply (cfg : Config) (env : Env) (sha : PyVal) (t : List Effect) :
    handle_new_commit cfg env sha t =
      (match env.prListResult with
       | Except.error e =>
         (Except.error e, t ++
           [.logInfo "Getting the list of pull requests from the target repository...",
            .listPullRequests (urlOwner cfg.target_repo_url) (urlRepo cfg.target_repo_url)])
       | Except.ok l =>
         if check_if_pr_exists sha l then
           (Except.ok (), t ++
             [.logInfo "Getting the list of pull requests from the target repository...",
              .listPullRequests (urlOwner cfg.target_repo_url) (urlRepo cfg.target_repo_url),
              .logInfo "A PR for the new commit already exists, skipping."])
         else
           match env.branchResult with
           | Option.some e => (Except.error e, t ++
               [.logInfo "Getting the list of pull requests from the target repository...",
                .listPullRequests (urlOwner cfg.target_repo_url) (urlRepo cfg.target_repo_url),
                .gitBranch ("branch_" ++ pyFormat sha)])
           | Option.none =>
             match env.checkoutResult with
             | Option.some e => (Except.error e, t ++
                 [.logInfo "Getting the list of pull requests from the target repository...",
                  .listPullRequests (urlOwner cfg.target_repo_url) (urlRepo cfg.target_repo_url),
                  .gitBranch ("branch_" ++ pyFormat sha),
                  .gitCheckout ("branch_" ++ pyFormat sha)])
             | Option.none =>
               match env.pushResult with
               | Option.some e => (Except.error e, t ++
                   [.logInfo "Getting the list of pull requests from the target repository...",
                    .listPullRequests (urlOwner cfg.target_repo_url) (urlRepo cfg.target_repo_url),
                    .gitBranch ("branch_" ++ pyFormat sha),
                    .gitCheckout ("branch_" ++ pyFormat sha),
                    .gitPush "otc_gitea" ("branch_" ++ pyFormat sha)])
               | Option.none =>
                 ((match env.createPrResult with
                   | Except.error e => Except.error e
                   | Except.ok _ => Except.ok ()),
                  t ++
                   [.logInfo "Getting the list of pull requests from the target repository...",
                    .listPullRequests (urlOwner cfg.target_repo_url) (urlRepo cfg.target_repo_url),
                    .gitBranch ("branch_" ++ pyFormat sha),
                    .gitCheckout ("branch_" ++ pyFormat sha),
                    .gitPush "otc_gitea" ("branch_" ++ pyFormat sha),
                    .createPullRequest cfg.target_owner cfg.target_repo "main"
                      ("branch_" ++ pyFormat sha)
                      ("Pull request for branch " ++ ("branch_" ++ pyFormat sha))
                      "This is an automated pull request."])) := by
  cases hl : env.prListResult with
  | error e =>
    simp [handle_new_commit, get_target_pull_requests_apply, hl, bind_apply, emit_apply,
          pure_apply]
  | ok l =>
    cases hex : check_if_pr_exists sha l <;>
    cases hb : env.branchResult <;> cases hc : env.checkoutResult <;>
    cases hp : env.pushResult <;> cases hcp : env.createPrResult <;>
      simp [handle_new_commit, get_target_pull_requests_apply, create_branch_in_target_apply,
            push_to_target_branch_apply, create_pr_in_target_apply,
            hl, hex, hb, hc, hp, hcp, bind_apply, emit_apply, pure_apply]

theorem check_for_new_commit_apply (cfg : Config) (env : Env) (last : PyVal) (t : List Effect) :
    check_for_new_commit cfg env last t =
      (match env.pullResult with
       | Option.some e =>
         (Except.error e, t ++
           [.logInfo "Starting the pull process from the source repository...", .gitPull])
       | Option.none =>
         match env.revParseOutput with
         | Except.error e =>
           (Except.error e, t ++
             [.logInfo "Starting the pull process from the source repository...", .gitPull,
              .gitRevParse])
         | Except.ok raw =>
           if pyEq (PyVal.bytes (pyStrip raw)) last then
             (Except.ok (PyVal.bytes (pyStrip raw)), t ++
               [.logInfo "Starting the pull process from the source repository...", .gitPull,
                .gitRevParse, .logInfo "No new commits detected."])
           else
             match handle_new_commit cfg env (PyVal.bytes (pyStrip raw))
                 (t ++ [.logInfo "Starting the pull process from the source repository...",
                        .gitPull, .gitRevParse]) with
             | (Except.ok _, t') => (Except.ok (PyVal.bytes (pyStrip raw)), t')
             | (Except.error e, t') => (Except.error e, t')) := by
  cases hp : env.pullResult with
  | some e =>
    simp [check_for_new_commit, pull_source_apply, hp, bind_apply]
  | none =>
    cases hr : env.revParseOutput with
    | error e =>
      simp [check_for_new_commit, pull_source_apply, get_source_latest_commit_sha_apply,
            hp, hr, bind_apply, emit_apply, pure_apply]
    | ok raw =>
      cases he : pyEq (PyVal.bytes (pyStrip raw)) last with
      | true =>
        simp [check_for_new_commit, pull_source_apply, get_source_latest_commit_sha_apply,
              hp, hr, he, bind_apply, emit_apply, pure_apply]
      | false =>
        simp only [check_for_new_commit, pull_source_apply, get_source_latest_commit_sha_apply,
              hp, hr, he, bind_apply, emit_apply, pure_apply, Bool.not_false, if_true,
              List.append_assoc, List.cons_append, List.nil_append]
        rcases hh : handle_new_commit cfg env (PyVal.bytes (pyStrip raw))
            (t ++ [.logInfo "Starting the pull process from the source repository...",
                   .gitPull, .gitRevParse]) with ⟨res, t'⟩
        cases res <;> simp [hh, pure_apply]

theorem run_cycle_apply (cfg : Config) (env : Env) (last : PyVal) (t : List Effect) :
    run_cycle cfg env last t =
      (match check_for_new_commit cfg env last
          (t ++ [.logInfo "Beginning the synchronization process..."]) with
       | (Except.ok v, t') =>
         (Except.ok v, t' ++ [.logInfo "Synchronization completed.", .sleep cfg.wait_time])
       | (Except.error e, t') => (Except.error e, t')) := by
  simp only [run_cycle, bind_apply, emit_apply, List.append_assoc, List.cons_append,
    List.nil_append]
  rcases hh : check_for_new_commit cfg env last
      (t ++ [.logInfo "Beginning the synchronization process..."]) with ⟨res, t'⟩
  cases res <;> simp [hh, emit_apply, pure_apply, bind_apply]

/-! ## Derived trace facts -/

theorem handle_countP_pull (cfg : Config) (env : Env) (sha : PyVal) (t : List Effect) :
    (handle_new_commit cfg env sha t).2.countP isPull = t.countP isPull := by
  rw [handle_new_commit_apply]
  cases hl : env.prListResult with
  | error e => simp [hl, List.countP_append, isPull]
  | ok l =>
    cases hex : check_if_pr_exists sha l <;>
    cases hb : env.branchResult <;> cases hc : env.checkoutResult <;>
    cases hp : env.pushResult <;> cases hcp : env.createPrResult <;>
      simp [hl, hex, hb, hc, hp, hcp, List.countP_append, List.countP_cons, isPull]

theorem handle_countP_sleep (cfg : Config) (env : Env) (sha : PyVal) (t : List Effect) :
    (handle_new_commit cfg env sha t).2.countP isSleep = t.countP isSleep := by
  rw [handle_new_commit_apply]
  cases hl : env.prListResult with
  | error e => simp [hl, List.countP_append, isSleep]
  | ok l =>
    cases hex : check_if_pr_exists sha l <;>
    cases hb : env.branchResult <;> cases hc : env.checkoutResult <;>
    cases hp : env.pushResult <;> cases hcp : env.createPrResult <;>
      simp [hl, hex, hb, hc, hp, hcp, List.countP_append, List.countP_cons, isSleep]

theorem handle_trace_prefix (cfg : Config) (env : Env) (sha : PyVal) (t : List Effect) :
    ∃ rest, (handle_new_commit cfg env sha t).2 =
      t ++ [.logInfo "Getting the list of pull requests from the target repository...",
            .listPullRequests (urlOwner cfg.target_repo_url) (urlRepo cfg.target_repo_url)]
        ++ rest := by
  rw [handle_new_commit_apply]
  cases hl : env.prListResult with
  | error e => exact ⟨[], by simp⟩
  | ok l =>
    cases hex : check_if_pr_exists sha l <;>
    cases hb : env.branchResult <;> cases hc : env.checkoutResult <;>
    cases hp : env.pushResult <;> cases hcp : env.createPrResult <;>
      { simp only [hl, hex, hb, hc, hp, hcp, List.append_assoc, List.cons_append,
          List.nil_append]
        exact ⟨_, rfl⟩ }

theorem check_countP_pull (cfg : Config) (env : Env) (last : PyVal) (t : List Effect) :
    (check_for_new_commit cfg env last t).2.countP isPull = t.countP isPull + 1 := by
  rw [check_for_new_commit_apply]
  cases hp : env.pullResult with
  | some e => simp [List.countP_append, List.countP_cons, isPull]
  | none =>
    cases hr : env.revParseOutput with
    | error e => simp [List.countP_append, List.countP_cons, isPull]
    | ok raw =>
      cases he : pyEq (PyVal.bytes (pyStrip raw)) last with
      | true => simp [he, List.countP_append, List.countP_cons, isPull]
      | false =>
        simp only [he, Bool.false_eq_true, if_false]
        rcases hh : handle_new_commit cfg env (PyVal.bytes (pyStrip raw))
            (t ++ [.logInfo "Starting the pull process from the source repository...",
                   .gitPull, .gitRevParse]) with ⟨res, t'⟩
        have hcount := handle_countP_pull cfg env (PyVal.bytes (pyStrip raw))
            (t ++ [.logInfo "Starting the pull process from the source repository...",
                   .gitPull, .gitRevParse])
        rw [hh] at hcount
        cases res <;>
          simp [hh, hcount, List.countP_append, List.countP_cons, isPull]

theorem check_countP_sleep (cfg : Config) (env : Env) (last : PyVal) (t : List Effect) :
    (check_for_new_commit cfg env last t).2.countP isSleep = t.countP isSleep := by
  rw [check_for_new_commit_apply]
  cases hp : env.pullResult with
  | some e => simp [List.countP_append, List.countP_cons, isSleep]
  | none =>
    cases hr : env.revParseOutput with
    | error e => simp [List.countP_append, List.countP_cons, isSleep]
    | ok raw =>
      cases he : pyEq (PyVal.bytes (pyStrip raw)) last with
      | true => simp [he, List.countP_append, List.countP_cons, isSleep]
      | false =>
        simp only [he, Bool.false_eq_true, if_false]
        rcases hh : handle_new_commit cfg env (PyVal.bytes (pyStrip raw))
            (t ++ [.logInfo "Starting the pull process from the source repository...",
                   .gitPull, .gitRevParse]) with ⟨res, t'⟩
        have hcount := handle_countP_sleep cfg env (PyVal.bytes (pyStrip raw))
            (t ++ [.logInfo "Starting the pull process from the source repository...",
                   .gitPull, .gitRevParse])
        rw [hh] at hcount
        cases res <;>
          simp [hh, hcount, List.countP_append, List.countP_cons, isSleep]

theorem check_ok_value (cfg : Config) (env : Env) (last : PyVal) (t : List Effect)
    (v : PyVal) (t' : List Effect)
    (h : check_for_new_commit cfg env last t = (Except.ok v, t')) :
    ∃ raw, env.revParseOutput = Except.ok raw ∧ v = PyVal.bytes (pyStrip raw) := by
  rw [check_for_new_commit_apply] at h
  cases hp : env.pullResult with
  | some e => simp [hp] at h
  | none =>
    cases hr : env.revParseOutput with
    | error e => simp [hp, hr] at h
    | ok raw =>
      refine ⟨raw, rfl, ?_⟩
      cases he : pyEq (PyVal.bytes (pyStrip raw)) last with
      | true =>
        simp [hp, hr, he] at h
        exact h.1.symm
      | false =>
        rcases hh : handle_new_commit cfg env (PyVal.bytes (pyStrip raw))
            (t ++ [.logInfo "Starting the pull process from the source repository...",
                   .gitPull, .gitRevParse]) with ⟨res, t2⟩
        cases res with
        | error e2 => simp [hp, hr, he, hh] at h
        | ok u =>
          simp [hp, hr, he, hh] at h
          exact h.1.symm

theorem run_cycle_countP_pull (cfg : Config) (env : Env) (last : PyVal) :
    (run_cycle cfg env last []).2.countP isPull = 1 := by
  rw [run_cycle_apply]
  rcases hh : check_for_new_commit cfg env last
      ([] ++ [.logInfo "Beginning the synchronization process..."]) with ⟨res, t'⟩
  have hc := check_countP_pull cfg env last
      ([] ++ [.logInfo "Beginning the synchronization process..."])
  rw [hh] at hc
  cases res <;>
    simp_all [List.countP_append, List.countP_cons, isPull]

theorem run_cycle_countP_sleep (cfg : Config) (env : Env) (last : PyVal) :
    (run_cycle cfg env last []).2.countP isSleep =
      (if resOk (run_cycle cfg env last []).1 then 1 else 0) := by
  rw [run_cycle_apply]
  rcases hh : check_for_new_commit cfg env last
      ([] ++ [.logInfo "Beginning the synchronization process..."]) with ⟨res, t'⟩
  have hc := check_countP_sleep cfg env last
      ([] ++ [.logInfo "Beginning the synchronization process..."])
  rw [hh] at hc
  cases res <;>
    simp_all [resOk, List.countP_append, List.countP_cons, isSleep]

theorem run_cycle_ok_value (cfg : Config) (env : Env) (last : PyVal) (v : PyVal)
    (tr : List Effect) (h : run_cycle cfg env last [] = (Except.ok v, tr)) :
    ∃ raw, env.revParseOutput = Except.ok raw ∧ v = PyVal.bytes (pyStrip raw) := by
  rw [run_cycle_apply] at h
  rcases hh : check_for_new_commit cfg env last
      ([] ++ [.logInfo "Beginning the synchronization process..."]) with ⟨res, t'⟩
  rw [hh] at h
  cases res with
  | error e => simp at h
  | ok a =>
    simp only [Prod.mk.injEq, Except.ok.injEq] at h
    rcases check_ok_value cfg env last _ a t' hh with ⟨raw, h1, h2⟩
    exact ⟨raw, h1, h.1 ▸ h2⟩

theorem run_cycle_caught_countP_pull (cfg : Config) (env : Env) (last : PyVal) :
    (run_cycle_caught cfg env last).1.countP isPull = 1 := by
  unfold run_cycle_caught
  rcases hh : run_cycle cfg env last [] with ⟨res, tr⟩
  have hc := run_cycle_countP_pull cfg env last
  rw [hh] at hc
  cases res <;> simp_all [List.countP_append, List.countP_cons, isPull]

theorem run_cycle_caught_sleep_of_error (cfg : Config) (env : Env) (last : PyVal)
    (e : PyErr) (tr : List Effect) (h : run_cycle cfg env last [] = (Except.error e, tr)) :
    (run_cycle_caught cfg env last).1.countP isSleep = 0 ∧
    Effect.logError ("An error occurred: " ++ errStr e) ∈ (run_cycle_caught cfg env last).1 := by
  have hc := run_cycle_countP_sleep cfg env last
  rw [h] at hc
  simp only [resOk] at hc
  constructor
  · simp [run_cycle_caught, h, List.countP_append, List.countP_cons, isSleep, hc]
  · simp [run_cycle_caught, h]

theorem run_cycle_caught_sleep_of_ok (cfg : Config) (env : Env) (last : PyVal)
    (v : PyVal) (tr : List Effect) (h : run_cycle cfg env last [] = (Except.ok v, tr)) :
    (run_cycle_caught cfg env last).1.countP isSleep = 1 := by
  have hc := run_cycle_countP_sleep cfg env last
  rw [h] at hc
  simp only [resOk] at hc
  simp [run_cycle_caught, h, hc]

theorem run_cycle_caught_last_of_error (cfg : Config) (env : Env) (last : PyVal)
    (e : PyErr) (tr : List Effect) (h : run_cycle cfg env last [] = (Except.error e, tr)) :
    (run_cycle_caught cfg env last).2 = last := by
  simp [run_cycle_caught, h]

theorem run_cycle_caught_last_of_ok (cfg : Config) (env : Env) (last : PyVal)
    (v : PyVal) (tr : List Effect) (h : run_cycle cfg env last [] = (Except.ok v, tr)) :
    (run_cycle_caught cfg env last).2 = v := by
  simp [run_cycle_caught, h]

theorem run_loop_countP_pull (cfg : Config) (envs : List Env) (last : PyVal) :
    (run_loop cfg envs last).1.countP isPull = envs.length := by
  induction envs generalizing last with
  | nil => simp [run_loop]
  | cons env rest ih =>
    rcases hc : run_cycle_caught cfg env last with ⟨tr, l1⟩
    rcases hl : run_loop cfg rest l1 with ⟨tr2, l2⟩
    have h1 := run_cycle_caught_countP_pull cfg env last
    rw [hc] at h1
    have h2 := ih l1
    rw [hl] at h2
    simp only [run_loop, hc, hl]
    simp [List.countP_append, h1, h2, Nat.add_comm]

/-! ## The claims -/

/-- Claim C1 (evaluation at the failing input): mirroring new source commit
`abc123` creates exactly one pull request whose base is `"main"`, but whose
title is `"Pull request for branch branch_b'abc123'"` — not the commit SHA —
and whose head is `"branch_b'abc123'"` — not `"branch_abc123"`; the title
therefore cannot serve as a deduplication key equal to the SHA. -/
theorem c1_created_pr_title_is_not_the_sha :
    (check_for_new_commit cfg0 envOk PyVal.none []).2.filter isCreatePr =
      [.createPullRequest "bob" "mirror" "main" "branch_b'abc123'"
        "Pull request for branch branch_b'abc123'" "This is an automated pull request."] ∧
    ("Pull request for branch branch_b'abc123'" : String) ≠ "abc123" ∧
    ("branch_b'abc123'" : String) ≠ "branch_abc123" := by
  refine ⟨by decide, by decide, by decide⟩

/-- Claim C2 (counterexample): with the pull and head read succeeding (head
`abc123`) but the push failing, the cycle ends with `last_commit_sha` still at
its old value `zzz`, not the newly read head — refuting the claim that the
update happens regardless of mirror failure once the pull has completed. -/
theorem c2_sha_not_updated_on_mirror_failure :
    envPushFail.pullResult = Option.none ∧
    envPushFail.revParseOutput = Except.ok "abc123\n" ∧
    (run_cycle_caught cfg0 envPushFail (PyVal.bytes "zzz")).1.countP isPull = 1 ∧
    (run_cycle_caught cfg0 envPushFail (PyVal.bytes "zzz")).2 = PyVal.bytes "zzz" ∧
    PyVal.bytes "zzz" ≠ PyVal.bytes (pyStrip "abc123\n") := by
  refine ⟨rfl, rfl, by decide, by decide, by decide⟩

/-- Claim C2 (amended): after a reconciliation cycle, `last_commit_sha` is
updated to the newly read head SHA exactly when the cycle raised no
exception; when the mirror step raises, line 136's assignment is skipped and
`last_commit_sha` keeps its previous value. -/
theorem c2_amended_update_iff_cycle_succeeds (cfg : Config) (env : Env) (last : PyVal) :
    (∀ e tr, run_cycle cfg env last [] = (Except.error e, tr) →
      (run_cycle_caught cfg env last).2 = last) ∧
    (∀ v tr, run_cycle cfg env last [] = (Except.ok v, tr) →
      (run_cycle_caught cfg env last).2 = v ∧
      ∃ raw, env.revParseOutput = Except.ok raw ∧ v = PyVal.bytes (pyStrip raw)) := by
  constructor
  · intro e tr h
    exact run_cycle_caught_last_of_error cfg env last e tr h
  · intro v tr h
    exact ⟨run_cycle_caught_last_of_ok cfg env last v tr h,
           run_cycle_ok_value cfg env last v tr h⟩

/-- Witness for C2's amended theorem at concrete cycles: a fully successful
cycle advances `last_commit_sha` to the new head, and a failing cycle leaves
it unchanged. -/
theorem c2_amended_witness :
    (run_cycle_caught cfg0 envOk (PyVal.bytes "zzz")).2 = PyVal.bytes "abc123" ∧
    (run_cycle_caught cfg0 envPullFail (PyVal.bytes "abc123")).2 = PyVal.bytes "abc123" := by
  constructor
  · exact ((c2_amended_update_iff_cycle_succeeds cfg0 envOk (PyVal.bytes "zzz")).2 _ _ rfl).1
  · exact (c2_amended_update_iff_cycle_succeeds cfg0 envPullFail (PyVal.bytes "abc123")).1 _ _ rfl

/-- Claim C3 (evaluation at the failing input): when the target's commit
listing returns the empty list, the bootstrap block only prints the syncing
message and performs no push — the `sync_source_to_target` call on line 311
is commented out; the push of `main` happens only on the HTTP-409
empty-repository signal, and never when commits already exist. -/
theorem c3_empty_commit_list_performs_no_push :
    bootstrap cfg0 bootEnvEmptyList [] =
      (Except.ok (), [.getCommits "bob" "mirror",
        .print "Target repository bob/mirror is empty. Syncing with source repository..."]) ∧
    (bootstrap cfg0 bootEnvEmptyList []).2.countP isPush = 0 ∧
    (bootstrap cfg0 bootEnv409 []).2.countP isPush = 1 ∧
    Effect.gitPush "otc_gitea" "main" ∈ (bootstrap cfg0 bootEnv409 []).2 ∧
    (bootstrap cfg0 bootEnvNonEmpty []).2.countP isPush = 0 := by
  refine ⟨rfl, by decide, by decide, by decide, by decide⟩

/-- Claim C4 (evaluation at the failing input): handling commit `abc123`
twice, where the second invocation's pull-request listing holds exactly the
pull request the first invocation created, creates a pull request BOTH times
— two in total, not one — because no created title ever equals the commit
identifier. -/
theorem c4_second_invocation_creates_second_pr :
    (handle_new_commit cfg0 envOk (PyVal.bytes "abc123") []).2.filter isCreatePr =
      [.createPullRequest "bob" "mirror" "main" "branch_b'abc123'"
        "Pull request for branch branch_b'abc123'" "This is an automated pull request."] ∧
    envSecond.prListResult = Except.ok [⟨"Pull request for branch branch_b'abc123'"⟩] ∧
    (handle_new_commit cfg0 envSecond (PyVal.bytes "abc123") []).2.countP isCreatePr = 1 := by
  refine ⟨by decide, rfl, by decide⟩

/-- Claim C5 (counterexample): a first cycle that fails (the pull raises) is
followed by the second cycle with no sleep in between — the only sleep in the
two-cycle trace comes after the successful second cycle — refuting "the sleep
occurs between every pair of consecutive cycles, including after a failed
cycle". -/
theorem c5_no_sleep_after_failed_cycle :
    (run_loop cfg0 [envPullFail, envOk] (PyVal.bytes "abc123")).1 =
      [.logInfo "Beginning the synchronization process...",
       .logInfo "Starting the pull process from the source repository...",
       .gitPull,
       .logError "An error occurred: Command returned non-zero exit status 1.",
       .logInfo "Beginning the synchronization process...",
       .logInfo "Starting the pull process from the source repository...",
       .gitPull, .gitRevParse,
       .logInfo "No new commits detected.",
       .logInfo "Synchronization completed.",
       .sleep 5] ∧
    (run_cycle_caught cfg0 envPullFail (PyVal.bytes "abc123")).1.countP isSleep = 0 := by
  refine ⟨by decide, by decide⟩

/-- Claim C5 (amended): every cycle's exception is caught and logged and the
loop always goes on to the next cycle — each supplied cycle performs its git
pull — but the sleep is skipped when a cycle raises: a failed cycle's trace
contains no sleep, while a cycle that completes sleeps exactly once. -/
theorem c5_amended_loop_continues_sleep_only_on_success (cfg : Config) (envs : List Env)
    (last : PyVal) :
    (run_loop cfg envs last).1.countP isPull = envs.length ∧
    (∀ env l e tr, run_cycle cfg env l [] = (Except.error e, tr) →
      (run_cycle_caught cfg env l).1.countP isSleep = 0 ∧
      Effect.logError ("An error occurred: " ++ errStr e) ∈ (run_cycle_caught cfg env l).1) ∧
    (∀ env l v tr, run_cycle cfg env l [] = (Except.ok v, tr) →
      (run_cycle_caught cfg env l).1.countP isSleep = 1) := by
  refine ⟨run_loop_countP_pull cfg envs last, ?_, ?_⟩
  · intro env l e tr h
    exact run_cycle_caught_sleep_of_error cfg env l e tr h
  · intro env l v tr h
    exact run_cycle_caught_sleep_of_ok cfg env l v tr h

/-- Witness for C5's amended theorem: a failing-then-succeeding two-cycle run
performs both pulls; the failed cycle sleeps zero times and the successful
cycle once. -/
theorem c5_amended_witness :
    (run_loop cfg0 [envPullFail, envOk] (PyVal.bytes "abc123")).1.countP isPull = 2 ∧
    (run_cycle_caught cfg0 envPullFail (PyVal.bytes "abc123")).1.countP isSleep = 0 ∧
    (run_cycle_caught cfg0 envOk (PyVal.bytes "abc123")).1.countP isSleep = 1 := by
  refine ⟨(c5_amended_loop_continues_sleep_only_on_success cfg0 [envPullFail, envOk]
      (PyVal.bytes "abc123")).1,
    ((c5_amended_loop_continues_sleep_only_on_success cfg0 [] PyVal.none).2.1 envPullFail
      (PyVal.bytes "abc123") _ _ rfl).1,
    (c5_amended_loop_continues_sleep_only_on_success cfg0 [] PyVal.none).2.2 envOk
      (PyVal.bytes "abc123") _ _ rfl⟩

/-- Claim C6 (confirmed): when the freshly pulled head equals
`last_commit_sha`, the cycle's whole trace is the pull, the head read and two
log lines — no pull-request listing, no branch creation, no push and no
pull-request creation occur. -/
theorem c6_unchanged_head_is_noop (cfg : Config) (env : Env) (last : PyVal) (raw : String)
    (hpull : env.pullResult = Option.none)
    (hrv : env.revParseOutput = Except.ok raw)
    (heq : pyEq (PyVal.bytes (pyStrip raw)) last = true) :
    check_for_new_commit cfg env last [] =
      (Except.ok (PyVal.bytes (pyStrip raw)),
       [.logInfo "Starting the pull process from the source repository...",
        .gitPull, .gitRevParse, .logInfo "No new commits detected."]) := by
  rw [check_for_new_commit_apply]
  simp [hpull, hrv, heq]

/-- Witness for C6 at a concrete cycle whose head `abc123` equals the stored
SHA. -/
theorem c6_witness :
    check_for_new_commit cfg0 envOk (PyVal.bytes "abc123") [] =
      (Except.ok (PyVal.bytes "abc123"),
       [.logInfo "Starting the pull process from the source repository...",
        .gitPull, .gitRevParse, .logInfo "No new commits detected."]) :=
  c6_unchanged_head_is_noop cfg0 envOk (PyVal.bytes "abc123") "abc123\n" rfl rfl (by decide)

/-- Claim C7 (confirmed): `check_if_pr_exists` returns `True` exactly when
some listed pull request's title is string-equal to the given commit SHA, and
a title that merely contains the SHA — "Pull request for abc123" against
`abc123` — is not a match. -/
theorem c7_duplicate_detection_is_exact_title_equality :
    (∀ (sha : String) (l : List PullRequest),
      (check_if_pr_exists (.str sha) l = true ↔ ∃ pr ∈ l, pr.title = sha)) ∧
    check_if_pr_exists (.str "abc123") [⟨"Pull request for abc123"⟩] = false := by
  constructor
  · intro sha l
    simp [check_if_pr_exists, pyEq, List.any_eq_true]
  · decide

/-- Claim C8 (confirmed): while `last_commit_sha` is still `None` (no commit
ever observed), a cycle whose pull and head read succeed always treats the
head as new — a bytes value never compares equal to `None` — and enters the
mirror protocol, whose first step is the pull-request listing. -/
theorem c8_first_cycle_with_empty_state_mirrors (cfg : Config) (env : Env) (raw : String)
    (hpull : env.pullResult = Option.none)
    (hrv : env.revParseOutput = Except.ok raw) :
    pyEq (PyVal.bytes (pyStrip raw)) PyVal.none = false ∧
    ∃ rest, (check_for_new_commit cfg env PyVal.none []).2 =
      [.logInfo "Starting the pull process from the source repository...",
       .gitPull, .gitRevParse,
       .logInfo "Getting the list of pull requests from the target repository...",
       .listPullRequests (urlOwner cfg.target_repo_url) (urlRepo cfg.target_repo_url)]
        ++ rest := by
  refine ⟨rfl, ?_⟩
  rw [check_for_new_commit_apply]
  simp only [hpull, hrv, pyEq, Bool.false_eq_true, if_false, List.nil_append]
  rcases handle_trace_prefix cfg env (PyVal.bytes (pyStrip raw))
      [.logInfo "Starting the pull process from the source repository...",
       .gitPull, .gitRevParse] with ⟨rest, hpre⟩
  rcases hh : handle_new_commit cfg env (PyVal.bytes (pyStrip raw))
      [.logInfo "Starting the pull process from the source repository...",
       .gitPull, .gitRevParse] with ⟨res, t2⟩
  rw [hh] at hpre
  cases res <;> simp only [hh] <;> exact ⟨rest, by simpa using hpre⟩

/-- Witness for C8 at a concrete first cycle with head `abc123`. -/
theorem c8_witness :
    pyEq (PyVal.bytes (pyStrip "abc123\n")) PyVal.none = false ∧
    ∃ rest, (check_for_new_commit cfg0 envOk PyVal.none []).2 =
      [.logInfo "Starting the pull process from the source repository...",
       .gitPull, .gitRevParse,
       .logInfo "Getting the list of pull requests from the target repository...",
       .listPullRequests (urlOwner cfg0.target_repo_url) (urlRepo cfg0.target_repo_url)]
        ++ rest :=
  c8_first_cycle_with_empty_state_mirrors cfg0 envOk "abc123\n" rfl rfl

/-- Claim C9 (counterexample): with target URL
`http://git.example.com/alice/mirror.git` but configured owner `bob`, one
mirror run lists pull requests under owner `alice` — parsed out of the URL —
while creating the pull request under owner `bob` from the configuration: the
listing owner IS parsed from the target URL and the two calls use different
owner/name pairs. -/
theorem c9_listing_owner_parsed_from_url :
    cfg0.target_repo_url = "http://git.example.com/alice/mirror.git" ∧
    cfg0.target_owner = "bob" ∧
    Effect.listPullRequests "alice" "mirror"
      ∈ (handle_new_commit cfg0 envOk (PyVal.bytes "abc123") []).2 ∧
    Effect.createPullRequest "bob" "mirror" "main" "branch_b'abc123'"
      "Pull request for branch branch_b'abc123'" "This is an automated pull request."
      ∈ (handle_new_commit cfg0 envOk (PyVal.bytes "abc123") []).2 ∧
    ("alice" : String) ≠ "bob" := by
  refine ⟨rfl, rfl, by decide, by decide, by decide⟩

/-- Claim C9 (amended): within one mirror run, the pull-request listing uses
the owner and repository name parsed from the target repository URL's path,
while pull-request creation uses the configured owner and repository name;
the two pairs coincide only when URL and configuration agree. -/
theorem c9_amended_listing_url_creation_config (cfg : Config) (env : Env) (sha : PyVal) :
    (∃ rest, (handle_new_commit cfg env sha []).2 =
      [.logInfo "Getting the list of pull requests from the target repository...",
       .listPullRequests (urlOwner cfg.target_repo_url) (urlRepo cfg.target_repo_url)]
        ++ rest) ∧
    (∀ owner repo base head title body,
      Effect.createPullRequest owner repo base head title body
        ∈ (handle_new_commit cfg env sha []).2 →
      owner = cfg.target_owner ∧ repo = cfg.target_repo) := by
  constructor
  · rcases handle_trace_prefix cfg env sha [] with ⟨rest, hpre⟩
    exact ⟨rest, by simpa using hpre⟩
  · intro owner repo base head title body hm
    rw [handle_new_commit_apply] at hm
    cases hl : env.prListResult with
    | error e => simp [hl] at hm
    | ok l =>
      cases hex : check_if_pr_exists sha l <;>
      cases hb : env.branchResult <;> cases hc : env.checkoutResult <;>
      cases hp : env.pushResult <;> cases hcp : env.createPrResult <;>
        simp_all [hl, hex, hb, hc, hp, hcp]

/-- Witness for C9's amended theorem: the pull request created in the
concrete run carries the configured owner and repository name. -/
theorem c9_amended_witness :
    ("bob" : String) = cfg0.target_owner ∧ ("mirror" : String) = cfg0.target_repo :=
  (c9_amended_listing_url_creation_config cfg0 envOk (PyVal.bytes "abc123")).2
    "bob" "mirror" "main" "branch_b'abc123'" "Pull request for branch branch_b'abc123'"
    "This is an automated pull request." (by decide)

/-- Claim C10 (confirmed): `get_source_latest_commit_sha` returns the
whitespace-stripped raw subprocess output as an undecoded bytes value; a
bytes commit identifier never compares equal to any (string) pull-request
title, so `check_if_pr_exists` always returns `False` for it; and the mirror
branch created for a bytes SHA `s` is named `branch_b'<s>'` — the Python
bytes repr interpolated by the f-string — not `branch_<s>`. -/
theorem c10_sha_is_raw_bytes (cfg : Config) (env : Env) (raw : String) (s : String)
    (l : List PullRequest)
    (hrv : env.revParseOutput = Except.ok raw)
    (hpl : env.prListResult = Except.ok l) :
    get_source_latest_commit_sha env [] =
      (Except.ok (PyVal.bytes (pyStrip raw)), [.gitRevParse]) ∧
    (∀ (s2 : String) (l2 : List PullRequest),
      check_if_pr_exists (PyVal.bytes s2) l2 = false) ∧
    (∃ rest, (handle_new_commit cfg env (PyVal.bytes s) []).2 =
      [.logInfo "Getting the list of pull requests from the target repository...",
       .listPullRequests (urlOwner cfg.target_repo_url) (urlRepo cfg.target_repo_url),
       .gitBranch ("branch_" ++ ("b'" ++ s ++ "'"))] ++ rest) := by
  have hfalse : ∀ (s2 : String) (l2 : List PullRequest),
      check_if_pr_exists (PyVal.bytes s2) l2 = false := by
    intro s2 l2
    simp [check_if_pr_exists, pyEq]
  refine ⟨?_, hfalse, ?_⟩
  · rw [get_source_latest_commit_sha_apply]
    simp [hrv]
  · rw [handle_new_commit_apply]
    simp only [hpl, hfalse s l, Bool.false_eq_true, if_false]
    cases hb : env.branchResult <;> cases hc : env.checkoutResult <;>
    cases hp : env.pushResult <;> cases hcp : env.createPrResult <;>
      { simp only [hb, hc, hp, hcp, pyFormat, List.append_assoc, List.cons_append,
          List.nil_append]
        exact ⟨_, rfl⟩ }

/-- Witness for C10 at the concrete head `abc123`: the returned value is the
bytes `abc123` and the branch created is `branch_b'abc123'`. -/
theorem c10_witness :
    get_source_latest_commit_sha envOk [] =
      (Except.ok (PyVal.bytes "abc123"), [.gitRevParse]) ∧
    (∀ (s2 : String) (l2 : List PullRequest),
      check_if_pr_exists (PyVal.bytes s2) l2 = false) ∧
    (∃ rest, (handle_new_commit cfg0 envOk (PyVal.bytes "abc123") []).2 =
      [.logInfo "Getting the list of pull requests from the target repository...",
       .listPullRequests (urlOwner cfg0.target_repo_url) (urlRepo cfg0.target_repo_url),
       .gitBranch ("branch_" ++ ("b'" ++ "abc123" ++ "'"))] ++ rest) :=
  c10_sha_is_raw_bytes cfg0 envOk "abc123\n" "abc123" [] rfl rfl

end GitSyncer
